import Mathlib

set_option maxRecDepth 10000

/-!
Verification of the smart-contract event listener (`src/main.rs`).

The development shallowly embeds the program:
* machine integers (`u64`) become `Nat` with explicit `% 2 ^ 64` where overflow matters;
* byte buffers (`H256`, `Address`, log data) become `List Nat` of byte values;
* the wall clock (`Local::now()`) becomes an explicit `now : String` input;
* I/O outcomes (file write success, webhook response) become oracle inputs;
* Rust's `?` operator in `main` becomes an explicit `aborted` flag: once it is
  set the polling loop is over, `main` has returned.

`ethers::utils::keccak256` is a library dependency whose source is not part of
this repository; it is modelled here by a complete Keccak-256 implementation
(rate 1088, capacity 512, multi-rate padding `0x01 .. 0x80`), validated below
against the published `Transfer(address,address,uint256)` topic hash.
-/

/-! ## Keccak-256 (model of the `ethers::utils::keccak256` dependency) -/

/-- Rotate a 64-bit lane (a `Nat` below `2 ^ 64`) left by `n` bits. -/
def rotLane (x n : Nat) : Nat :=
  ((x <<< n) ||| (x >>> (64 - n))) % (2 ^ 64)

/-- Lane lookup in a flat 5x5 state list, defaulting to `0` out of range. -/
def getL (s : List Nat) (i : Nat) : Nat := s.getD i 0

/-- Rotation offsets of the rho step, one row (`y` fixed) per inner list. -/
def rhoRows : List (List Nat) :=
  [[0, 1, 62, 28, 27],
   [36, 44, 6, 55, 20],
   [3, 10, 43, 25, 39],
   [41, 45, 15, 21, 8],
   [18, 2, 61, 56, 14]]

/-- Rotation offsets of the rho step, flat index `x + 5 * y`. -/
def rhoOffsets : List Nat := rhoRows.flatten

/-- The 24 round constants of Keccak-f[1600] (FIPS 202), written in decimal. -/
def roundConstants : List Nat :=
  [1, 32898, 9223372036854808714,
   9223372039002292224, 32907, 2147483649,
   9223372039002292353, 9223372036854808585, 138,
   136, 2147516425, 2147483658,
   2147516555, 9223372036854775947, 9223372036854808713,
   9223372036854808579, 9223372036854808578, 9223372036854775936,
   32778, 9223372039002259466, 9223372039002292353,
   9223372036854808704, 2147483649, 9223372039002292232]

/-- Theta step of Keccak-f. -/
def theta (a : List Nat) : List Nat :=
  let c := (List.range 5).map fun x =>
    getL a x ^^^ getL a (x + 5) ^^^ getL a (x + 10) ^^^ getL a (x + 15) ^^^ getL a (x + 20)
  let d := (List.range 5).map fun x =>
    getL c ((x + 4) % 5) ^^^ rotLane (getL c ((x + 1) % 5)) 1
  (List.range 25).map fun i => getL a i ^^^ getL d (i % 5)

/-- Combined rho and pi steps: output lane `(u, v)` is the rotated source lane
`(x, u)` with `x = 3 * (v + 2 * u) mod 5`, inverting `v = (2 * x + 3 * u) mod 5`. -/
def rhoPi (a : List Nat) : List Nat :=
  (List.range 25).map fun j =>
    let u := j % 5
    let v := j / 5
    let x := (3 * (v + 2 * u)) % 5
    rotLane (getL a (x + 5 * u)) (getL rhoOffsets (x + 5 * u))

/-- Chi step of Keccak-f; bitwise NOT is xor with the 64-bit mask. -/
def chi (b : List Nat) : List Nat :=
  (List.range 25).map fun j =>
    let x := j % 5
    let y := j / 5
    getL b j ^^^ ((getL b ((x + 1) % 5 + 5 * y) ^^^ (2 ^ 64 - 1)) &&& getL b ((x + 2) % 5 + 5 * y))

/-- One round of Keccak-f: theta, rho, pi, chi, then iota with constant `rc`. -/
def keccakRound (a : List Nat) (rc : Nat) : List Nat :=
  let b := chi (rhoPi (theta a))
  b.set 0 (getL b 0 ^^^ rc)

/-- The full Keccak-f[1600] permutation: 24 rounds. -/
def keccakF (a : List Nat) : List Nat :=
  roundConstants.foldl keccakRound a

/-- Assemble one 64-bit lane from eight little-endian bytes. -/
def bytesToLane (bs : List Nat) : Nat :=
  (List.range 8).foldl (fun acc k => acc ||| (getL bs k <<< (8 * k))) 0

/-- The 17 lanes (136 bytes = rate 1088 bits) of one padded message block. -/
def blockLanes (block : List Nat) : List Nat :=
  (List.range 17).map fun i => bytesToLane ((block.drop (8 * i)).take 8)

/-- Absorb one 136-byte block: xor it into the state, then permute. -/
def absorbBlock (s block : List Nat) : List Nat :=
  keccakF ((List.range 25).map fun i => getL s i ^^^ getL (blockLanes block) i)

/-- Keccak multi-rate padding to a multiple of 136 bytes: `0x01 0x00* 0x80`,
collapsing to the single byte `0x81` when only one byte is free. -/
def padKeccak (m : List Nat) : List Nat :=
  let q := 136 - m.length % 136
  if q = 1 then m ++ [0x81]
  else m ++ 0x01 :: (List.replicate (q - 2) 0 ++ [0x80])

/-- The eight little-endian output bytes of one lane. -/
def laneBytes (l : Nat) : List Nat :=
  (List.range 8).map fun k => (l >>> (8 * k)) % 256

/-- Keccak-256 of a byte sequence: absorb all padded blocks into the all-zero
state, then squeeze the first 32 bytes (lanes 0 to 3, little-endian). -/
def keccak256 (m : List Nat) : List Nat :=
  let p := padKeccak m
  let s := ((List.range (p.length / 136)).map fun i =>
    (p.drop (136 * i)).take 136).foldl absorbBlock (List.replicate 25 0)
  laneBytes (getL s 0) ++ laneBytes (getL s 1) ++ laneBytes (getL s 2) ++ laneBytes (getL s 3)

/-- UTF-8 encoding of one Unicode code point. -/
def utf8EncodeChar (c : Nat) : List Nat :=
  if c < 0x80 then [c]
  else if c < 0x800 then [0xC0 ||| (c >>> 6), 0x80 ||| (c &&& 0x3F)]
  else if c < 0x10000 then
    [0xE0 ||| (c >>> 12), 0x80 ||| ((c >>> 6) &&& 0x3F), 0x80 ||| (c &&& 0x3F)]
  else
    [0xF0 ||| (c >>> 18), 0x80 ||| ((c >>> 12) &&& 0x3F),
     0x80 ||| ((c >>> 6) &&& 0x3F), 0x80 ||| (c &&& 0x3F)]

/-- The UTF-8 bytes of a string (`str::as_bytes` in the source). -/
def utf8Bytes (s : String) : List Nat :=
  (s.data.map fun c => utf8EncodeChar c.toNat).flatten

/-- `compute_event_topic` (main.rs lines 218-222): the Keccak-256 digest of the
event signature's UTF-8 bytes, as the 32 bytes of the `H256`. -/
def compute_event_topic (event_sig : String) : List Nat :=
  keccak256 (utf8Bytes event_sig)

/-! ## Data model -/

/-- A raw log entry (`ethers` `Log`), the fields `log_to_event_data` reads.
`H256` values and the data payload are byte lists; optional fields model the
`Option` fields of the Rust struct (pending logs). -/
structure Log where
  block_number : Option Nat
  transaction_hash : Option (List Nat)
  log_index : Option Nat
  topics : List (List Nat)
  data : List Nat
deriving DecidableEq

/-- `EventData` (main.rs lines 50-62): the canonical event record. -/
structure EventData where
  timestamp : String
  chain_id : Option Nat
  chain_name : String
  block_number : Nat
  transaction_hash : String
  log_index : Nat
  contract_address : String
  topics : List String
  data : String
  event_signature : Option String
deriving DecidableEq

/-- The run-time configuration fields of `Args` that the loop body reads. -/
structure Config where
  output_format : String
  output_file : Option String
  webhook_url : Option String
  chain_id : Option Nat
  chain_name : String
  contract : List Nat
  event : Option String
deriving DecidableEq

/-- Lower-case hex digit of a value below 16 (as `hex::encode` and the
`Debug` rendering of `H256`/`Address` produce). -/
def hexDigit (n : Nat) : Char :=
  if n < 10 then Char.ofNat (48 + n) else Char.ofNat (87 + n)

/-- Two lower-case hex characters of one byte. -/
def byteToHex (b : Nat) : List Char :=
  [hexDigit (b / 16 % 16), hexDigit (b % 16)]

/-- Lower-case hex string of a byte sequence (`hex::encode`). -/
def bytesToHex (bs : List Nat) : String :=
  String.mk (bs.map byteToHex).flatten

/-- The `Debug` rendering of an `H256` or `Address`: `0x` then lower-case hex. -/
def formatHex0x (bs : List Nat) : String :=
  "0x" ++ bytesToHex bs

/-- `log_to_event_data` (main.rs lines 224-246). `Local::now().to_rfc3339()`
is modelled by the explicit wall-clock input `now`; every other field is the
source expression: missing block number and log index default to `0`
(`unwrap_or(0)`), a missing transaction hash defaults to the empty string
(`unwrap_or_default` on `String`). -/
def log_to_event_data (now : String) (log : Log) (chain_id : Option Nat)
    (chain_name : String) (contract_address : List Nat)
    (event_signature : Option String) : EventData :=
  { timestamp := now
    chain_id := chain_id
    chain_name := chain_name
    block_number := log.block_number.getD 0
    transaction_hash := (log.transaction_hash.map formatHex0x).getD ""
    log_index := log.log_index.getD 0
    contract_address := formatHex0x contract_address
    topics := log.topics.map formatHex0x
    data := bytesToHex log.data
    event_signature := event_signature }

/-! ## Sinks -/

/-- `print_compact` (main.rs lines 253-262) slices
`&event.transaction_hash[..10]` and `&event.contract_address[..10]`
unconditionally; on a string shorter than 10 bytes the slice panics. The
panic is modelled by `none`; all produced strings are ASCII, so the byte
length equals the character count. -/
def print_compact (event : EventData) : Option String :=
  if 10 ≤ event.transaction_hash.length ∧ 10 ≤ event.contract_address.length then
    some ("[" ++ event.timestamp ++ "] Block " ++ toString event.block_number
      ++ " | Tx " ++ event.transaction_hash.take 10
      ++ " | Contract " ++ event.contract_address.take 10
      ++ " | Topics: " ++ toString event.topics.length)
  else none

/-- Console step of the dispatch (main.rs lines 149-153). `print_json` cannot
fail on this record shape and `print_pretty` is infallible, so only the
`compact` branch can abort (panic of `print_compact`); the rendered text of
the other two formats is not inspected by any property. Returns `false` when
the step aborts the loop body. -/
def consoleStep (output_format : String) (event : EventData) : Bool :=
  if output_format = "json" then true
  else if output_format = "compact" then (print_compact event).isSome
  else true

/-- Outcome of one webhook POST, an oracle for the external HTTP exchange. -/
inductive WebhookOutcome where
  | transportErr
  | status (success : Bool)
deriving DecidableEq

/-- Oracle for the external effects of dispatching one event: whether the
file open/append succeeds, and the webhook exchange outcome. -/
structure SinkOutcome where
  fileOk : Bool
  webhook : WebhookOutcome
deriving DecidableEq

/-- `write_to_file` (main.rs lines 294-306): opens in append/create mode and
writes one JSON line; the oracle says whether the open and write succeed. -/
def write_to_file (io_ok : Bool) : Except String Unit :=
  if io_ok then Except.ok () else Except.error "file io error"

/-- `send_webhook` (main.rs lines 308-321): a transport failure propagates
through `?` (line 314); a completed exchange returns `Ok`, emitting a warning
(`true`) exactly when the status is not a success (lines 316-318). -/
def send_webhook (resp : WebhookOutcome) : Except String Bool :=
  match resp with
  | .transportErr => Except.error "webhook transport error"
  | .status s => Except.ok (!s)

/-- Trace of dispatching one event to the sinks (main.rs lines 148-163). -/
structure HandleRes where
  aborted : Bool
  fileAttempted : Bool
  fileWritten : Bool
  webhookAttempted : Bool
  webhookDelivered : Bool
  webhookWarned : Bool
deriving DecidableEq

/-- Webhook tail of the per-event dispatch (main.rs lines 160-163): only runs
when the earlier sinks did not abort; `fa`/`fw` record the file sink outcome
reached so far. `send_webhook(..).await?` propagates a transport error. -/
def webhookPart (cfg : Config) (o : SinkOutcome) (fa fw : Bool) : HandleRes :=
  match cfg.webhook_url with
  | some _ =>
    match send_webhook o.webhook with
    | .error _ =>
      { aborted := true, fileAttempted := fa, fileWritten := fw,
        webhookAttempted := true, webhookDelivered := false, webhookWarned := false }
    | .ok warned =>
      { aborted := false, fileAttempted := fa, fileWritten := fw,
        webhookAttempted := true, webhookDelivered := true, webhookWarned := warned }
  | none =>
    { aborted := false, fileAttempted := fa, fileWritten := fw,
      webhookAttempted := false, webhookDelivered := false, webhookWarned := false }

/-- Per-event dispatch (main.rs lines 148-163), in source order: console
output, then `write_to_file(..)?` when an output file is configured (line
157, `?` aborts the loop body), then the webhook. -/
def handleEvent (cfg : Config) (event : EventData) (o : SinkOutcome) : HandleRes :=
  if consoleStep cfg.output_format event = false then
    { aborted := true, fileAttempted := false, fileWritten := false,
      webhookAttempted := false, webhookDelivered := false, webhookWarned := false }
  else
    match cfg.output_file with
    | some _ =>
      match write_to_file o.fileOk with
      | .error _ =>
        { aborted := true, fileAttempted := true, fileWritten := false,
          webhookAttempted := false, webhookDelivered := false, webhookWarned := false }
      | .ok _ => webhookPart cfg o true true
    | none => webhookPart cfg o false false

/-! ## Poll loop -/

/-- Result of `provider.get_logs(&filter)` (main.rs line 137), an oracle for
the external log-query call. -/
inductive QueryResult where
  | ok (logs : List Log)
  | err
deriving DecidableEq

/-- Observable outcome of one iteration of the `loop` (main.rs lines 117-180):
the block range handed to `get_logs` (if any), `current_block` after the
iteration, whether a `?` fired (so `main` returned and polling stopped, in
which case `watermark` is the unchanged pre-tick value, line 176 being
unreachable), the events whose dispatch completed, and whether the
`Error fetching logs` report was printed. -/
structure TickOut where
  range : Option (Nat × Nat)
  watermark : Nat
  aborted : Bool
  events : List EventData
  queryErrorReported : Bool
deriving DecidableEq

/-- Dispatch of the query results in order (main.rs lines 139-164); `outs i`
is the sink oracle for the i-th event. Returns whether a dispatch aborted the
loop (a `?` fired) and the events dispatched to completion before that. -/
def processEvents (cfg : Config) (outs : Nat → SinkOutcome) :
    Nat → List EventData → Bool × List EventData
  | _, [] => (false, [])
  | i, ev :: rest =>
    if (handleEvent cfg ev (outs i)).aborted then (true, [])
    else
      let r := processEvents cfg outs (i + 1) rest
      (r.1, ev :: r.2)

/-- One iteration of the polling loop (main.rs lines 117-180) with
`current_block` as the incoming watermark and `head` the freshly fetched
latest block. Only when `head > current_block` is a filter built for the
inclusive range `[current_block, head]` and `get_logs` called; afterwards
`current_block = head + 1` is executed unconditionally (line 176 sits outside
the `match`, so it also runs when the query returned an error). -/
def tick (cfg : Config) (now : String) (current_block head : Nat)
    (q : QueryResult) (outs : Nat → SinkOutcome) : TickOut :=
  if head > current_block then
    match q with
    | .ok logs =>
      let evs := logs.map fun l =>
        log_to_event_data now l cfg.chain_id cfg.chain_name cfg.contract cfg.event
      let p := processEvents cfg outs 0 evs
      if p.1 then
        { range := some (current_block, head), watermark := current_block,
          aborted := true, events := p.2, queryErrorReported := false }
      else
        { range := some (current_block, head), watermark := head + 1,
          aborted := false, events := p.2, queryErrorReported := false }
    | .err =>
      { range := some (current_block, head), watermark := head + 1,
        aborted := false, events := [], queryErrorReported := true }
  else
    { range := none, watermark := current_block, aborted := false,
      events := [], queryErrorReported := false }

/-- External inputs of one tick: the wall clock, the fetched head, the query
outcome, and the per-event sink oracles. -/
structure TickInp where
  now : String
  head : Nat
  q : QueryResult
  outs : Nat → SinkOutcome

/-- A run of the polling loop over a sequence of tick inputs: the final
watermark, the block ranges issued to `get_logs` in order, and whether the
run ended in an abort of `main`. -/
def run (cfg : Config) : Nat → List TickInp → Nat × List (Nat × Nat) × Bool
  | cb, [] => (cb, [], false)
  | cb, i :: rest =>
    let t := tick cfg i.now cb i.head i.q i.outs
    if t.aborted then (cb, t.range.toList, true)
    else
      let r := run cfg t.watermark rest
      (r.1, t.range.toList ++ r.2.1, r.2.2)

/-! ## Concrete fixtures -/

/-- A 20-byte contract address. -/
def addr0 : List Nat := List.replicate 20 0x11

/-- Configuration with only the console sink (pretty format). -/
def cfg0 : Config :=
  { output_format := "pretty", output_file := none, webhook_url := none,
    chain_id := some 1, chain_name := "Ethereum Mainnet",
    contract := addr0, event := none }

/-- Configuration with console, file and webhook sinks all enabled. -/
def cfg2 : Config :=
  { output_format := "pretty", output_file := some "events.jsonl",
    webhook_url := some "http://example.com/hook",
    chain_id := some 1, chain_name := "Ethereum Mainnet",
    contract := addr0, event := none }

/-- Configuration with console and webhook sinks (no output file). -/
def cfg3 : Config :=
  { output_format := "pretty", output_file := none,
    webhook_url := some "http://example.com/hook",
    chain_id := some 1, chain_name := "Ethereum Mainnet",
    contract := addr0, event := none }

/-- A fully populated (mined) raw log entry. -/
def log0 : Log :=
  { block_number := some 101, transaction_hash := some (List.replicate 32 0xab),
    log_index := some 0, topics := [List.replicate 32 0xdd], data := [1, 2, 3] }

/-- A pending raw log entry: every optional field absent. -/
def logPending : Log :=
  { block_number := none, transaction_hash := none,
    log_index := none, topics := [], data := [] }

/-- The normalized record of `log0` under `cfg2`'s metadata. -/
def ev0 : EventData :=
  log_to_event_data "2026-01-01T00:00:00+00:00" log0 (some 1) "Ethereum Mainnet" addr0 none

/-- Sink oracle where every delivery succeeds. -/
def oAllOk : SinkOutcome := { fileOk := true, webhook := .status true }

/-- Sink oracle where the file open/write fails. -/
def oFileFail : SinkOutcome := { fileOk := false, webhook := .status true }

/-- Sink oracle where the webhook POST fails at the transport level. -/
def oTransport : SinkOutcome := { fileOk := true, webhook := .transportErr }

/-- Sink oracle where the webhook POST completes with a non-success status. -/
def oStatus500 : SinkOutcome := { fileOk := true, webhook := .status false }

/-! ## Derived definitions used by the properties -/

/-- The published Keccak-256 topic hash of `Transfer(address,address,uint256)`,
in its usual hex rendering. -/
def transferTopicHex : String :=
  "ddf252ad1be2c89b69c2b068fc378daa952ba7f163c4a11628f55a4df523b3ef"

/-- Two canonical event records agree on every field except the timestamp. -/
def eqExceptTimestamp (a b : EventData) : Prop :=
  a.chain_id = b.chain_id ∧ a.chain_name = b.chain_name ∧
  a.block_number = b.block_number ∧ a.transaction_hash = b.transaction_hash ∧
  a.log_index = b.log_index ∧ a.contract_address = b.contract_address ∧
  a.topics = b.topics ∧ a.data = b.data ∧ a.event_signature = b.event_signature

/-! ## Helper lemmas -/

/-- Shape of one tick: either no range is issued and the watermark is kept, or
the range `[cb, head]` is issued; then the watermark becomes `head + 1` unless
the tick aborted, in which case it is kept. -/
theorem tick_shape (cfg : Config) (now : String) (cb head : Nat) (q : QueryResult)
    (outs : Nat → SinkOutcome) :
    ((tick cfg now cb head q outs).range = none ∧
      (tick cfg now cb head q outs).watermark = cb) ∨
    ((tick cfg now cb head q outs).range = some (cb, head) ∧
      ((tick cfg now cb head q outs).aborted = false →
        (tick cfg now cb head q outs).watermark = head + 1) ∧
      ((tick cfg now cb head q outs).aborted = true →
        (tick cfg now cb head q outs).watermark = cb)) := by
  unfold tick
  split
  · cases q with
    | ok logs =>
      dsimp only
      split
      · exact Or.inr ⟨rfl, fun h => Bool.noConfusion h, fun _ => rfl⟩
      · exact Or.inr ⟨rfl, fun _ => rfl, fun h => Bool.noConfusion h⟩
    | err => exact Or.inr ⟨rfl, fun _ => rfl, fun h => Bool.noConfusion h⟩
  · exact Or.inl ⟨rfl, rfl⟩

/-- Unfolding of `run` on the empty input list. -/
theorem run_nil (cfg : Config) (cb : Nat) : run cfg cb [] = (cb, [], false) := rfl

/-- Unfolding of `run` on a cons cell. -/
theorem run_cons (cfg : Config) (cb : Nat) (i : TickInp) (rest : List TickInp) :
    run cfg cb (i :: rest) =
      (let t := tick cfg i.now cb i.head i.q i.outs
       if t.aborted then (cb, t.range.toList, true)
       else
         let r := run cfg t.watermark rest
         (r.1, t.range.toList ++ r.2.1, r.2.2)) := rfl

/-- Main invariant of a run: the issued ranges are chained
(`next.from = previous.to + 1`) and the first issued range starts at the
initial watermark. -/
theorem run_chain (cfg : Config) (inps : List TickInp) : ∀ cb : Nat,
    List.Chain' (fun r s => s.1 = r.2 + 1) (run cfg cb inps).2.1 ∧
    (∀ r, (run cfg cb inps).2.1.head? = some r → r.1 = cb) := by
  induction inps with
  | nil => intro cb; simp [run_nil]
  | cons i rest ih =>
    intro cb
    rw [run_cons]
    rcases tick_shape cfg i.now cb i.head i.q i.outs with ⟨hr, hw⟩ | ⟨hr, hwf, hwt⟩
    · by_cases hab : (tick cfg i.now cb i.head i.q i.outs).aborted
      · simp only [hab, if_true, hr, Option.toList_none]
        exact ⟨List.chain'_nil, fun r h => by simp at h⟩
      · simp only [hab, if_false, hr, Option.toList_none, List.nil_append, hw]
        exact ih cb
    · by_cases hab : (tick cfg i.now cb i.head i.q i.outs).aborted
      · simp only [hab, if_true, hr, Option.toList_some]
        exact ⟨List.chain'_singleton _, fun r h => by simp at h; subst h; rfl⟩
      · have hw := hwf (by simpa using hab)
        simp only [hab, if_false, hr, Option.toList_some, List.singleton_append, hw]
        obtain ⟨hc, hh⟩ := ih (i.head + 1)
        refine ⟨List.chain'_cons'.mpr ⟨?_, hc⟩, fun r h => by simp at h; subst h; rfl⟩
        intro y hy
        exact hh y hy

/-! ## Claims -/

/-- Claim C1, counterexample. The claim states that on a tick whose log query
errors, the watermark after the tick equals the watermark before. On the tick
with watermark 5, head 7 and a failing query, the error is reported but the
watermark becomes 8, not 5: line 176 (`current_block = latest_block + 1`)
sits outside the `match` on the query result, so it runs on the error path. -/
theorem c1_counterexample :
    (tick cfg0 "t" 5 7 .err (fun _ => oAllOk)).queryErrorReported = true ∧
    (tick cfg0 "t" 5 7 .err (fun _ => oAllOk)).watermark ≠ 5 := by decide

/-- Claim C1, amended: on every tick whose log query errors (with
`head > watermark`, so a query was issued), the failure is reported and the
watermark still advances to `head + 1`; the errored range is skipped, not
retried. -/
theorem c1_prop (cfg : Config) (now : String) (cb head : Nat)
    (outs : Nat → SinkOutcome) (h : cb < head) :
    tick cfg now cb head .err outs =
      { range := some (cb, head), watermark := head + 1, aborted := false,
        events := [], queryErrorReported := true } := by
  unfold tick
  rw [if_pos h]

/-- Witness for the amended C1 at watermark 5, head 7. -/
theorem c1_witness :
    tick cfg0 "t" 5 7 .err (fun _ => oAllOk) =
      { range := some (5, 7), watermark := 8, aborted := false,
        events := [], queryErrorReported := true } :=
  c1_prop cfg0 "t" 5 7 (fun _ => oAllOk) (by decide)

/-- Claim C2, counterexample. The claim states a file-sink failure does not
stop the polling loop and does not prevent delivery to the remaining sinks.
With file and webhook sinks enabled and a failing file write, the dispatch
aborts (`write_to_file(..)?` on line 157 propagates out of `main`), the
webhook is never attempted, and the tick carrying the event aborts the loop. -/
theorem c2_counterexample :
    (handleEvent cfg2 ev0 oFileFail).aborted = true ∧
    (handleEvent cfg2 ev0 oFileFail).webhookAttempted = false ∧
    (tick cfg2 "2026-01-01T00:00:00+00:00" 3 5 (.ok [log0])
      (fun _ => oFileFail)).aborted = true := by
  decide

/-- Claim C2, amended: whenever an output file is configured, the console step
completed and the file open/write fails, the per-event dispatch aborts the
polling loop (the error propagates out of `main` via `?`); the webhook sink
is not attempted for that event, and no later event is processed. -/
theorem c2_prop (cfg : Config) (ev : EventData) (o : SinkOutcome)
    (hfile : cfg.output_file.isSome = true) (hfail : o.fileOk = false)
    (hconsole : consoleStep cfg.output_format ev = true) :
    handleEvent cfg ev o =
      { aborted := true, fileAttempted := true, fileWritten := false,
        webhookAttempted := false, webhookDelivered := false, webhookWarned := false } := by
  obtain ⟨f, hf⟩ := Option.isSome_iff_exists.mp hfile
  simp [handleEvent, hconsole, hf, hfail, write_to_file]

/-- Witness for the amended C2 on the three-sink configuration. -/
theorem c2_witness :
    handleEvent cfg2 ev0 oFileFail =
      { aborted := true, fileAttempted := true, fileWritten := false,
        webhookAttempted := false, webhookDelivered := false, webhookWarned := false } :=
  c2_prop cfg2 ev0 oFileFail (by decide) (by decide) (by decide)

/-- Claim C3, counterexample. The claim states a transport-level failure of
the webhook POST is reported and swallowed without aborting the polling loop.
With the webhook sink enabled and a transport failure, the dispatch aborts
(`send_webhook(..).await?` on line 162 propagates the `?` inside
`send_webhook`, line 314), and the tick carrying the event aborts the loop. -/
theorem c3_counterexample :
    (handleEvent cfg3 ev0 oTransport).aborted = true ∧
    (tick cfg3 "2026-01-01T00:00:00+00:00" 3 5 (.ok [log0])
      (fun _ => oTransport)).aborted = true := by
  decide

/-- Claim C3, amended: for every event posted to the webhook sink, a completed
POST with a non-success HTTP status causes only a warning (the dispatch call
returns success and the loop continues), but a transport-level failure of the
POST propagates and aborts the polling loop. -/
theorem c3_prop (cfg : Config) (ev : EventData) (o : SinkOutcome) (s : Bool)
    (hhook : cfg.webhook_url.isSome = true) (hnofile : cfg.output_file = none)
    (hconsole : consoleStep cfg.output_format ev = true) :
    (o.webhook = .status s → handleEvent cfg ev o =
      { aborted := false, fileAttempted := false, fileWritten := false,
        webhookAttempted := true, webhookDelivered := true, webhookWarned := !s }) ∧
    (o.webhook = .transportErr → (handleEvent cfg ev o).aborted = true) := by
  obtain ⟨u, hu⟩ := Option.isSome_iff_exists.mp hhook
  constructor <;> intro hw <;>
    simp [handleEvent, hconsole, hnofile, webhookPart, hu, send_webhook, hw]

/-- Witness for the amended C3: an HTTP 500 only warns, a transport failure
aborts. -/
theorem c3_witness :
    handleEvent cfg3 ev0 oStatus500 =
      { aborted := false, fileAttempted := false, fileWritten := false,
        webhookAttempted := true, webhookDelivered := true, webhookWarned := true } ∧
    (handleEvent cfg3 ev0 oTransport).aborted = true :=
  ⟨(c3_prop cfg3 ev0 oStatus500 false (by decide) (by decide) (by decide)).1 (by decide),
   (c3_prop cfg3 ev0 oTransport false (by decide) (by decide) (by decide)).2 (by decide)⟩

/-- Claim C4, counterexample. The claim states the controller skips to sleep
exactly when `head ≤ watermark - 1`, and in particular queries when head
equals the watermark. At watermark 5, head 5, the guard
`latest_block > current_block` (line 121) is false: no filter is built and no
query issued, even though `5 ≤ 5 - 1` does not hold. -/
theorem c4_counterexample :
    (tick cfg0 "t" 5 5 (.ok []) (fun _ => oAllOk)).range = none ∧ ¬ (5 ≤ 5 - 1) := by
  decide

/-- Claim C4, amended: on every tick the controller skips directly to sleep
exactly when `head ≤ watermark` (including head equal to the watermark);
otherwise it issues a query for the inclusive range `[watermark, head]` and,
unless the tick aborted in dispatch, sets the watermark to `head + 1`. -/
theorem c4_prop (cfg : Config) (now : String) (cb head : Nat) (q : QueryResult)
    (outs : Nat → SinkOutcome) :
    (head ≤ cb → tick cfg now cb head q outs =
      { range := none, watermark := cb, aborted := false, events := [],
        queryErrorReported := false }) ∧
    (cb < head → (tick cfg now cb head q outs).range = some (cb, head) ∧
      ((tick cfg now cb head q outs).aborted = false →
        (tick cfg now cb head q outs).watermark = head + 1)) := by
  constructor
  · intro h
    unfold tick
    rw [if_neg (by omega)]
  · intro h
    unfold tick
    rw [if_pos h]
    cases q with
    | ok logs =>
      dsimp only
      split
      · exact ⟨rfl, fun hab => Bool.noConfusion hab⟩
      · exact ⟨rfl, fun _ => rfl⟩
    | err => exact ⟨rfl, fun _ => rfl⟩

/-- Witness for the amended C4: head 5 at watermark 5 skips; head 5 at
watermark 3 issues the range `[3, 5]` and advances to 6. -/
theorem c4_witness :
    tick cfg0 "t" 5 5 (.ok []) (fun _ => oAllOk) =
      { range := none, watermark := 5, aborted := false, events := [],
        queryErrorReported := false } ∧
    ((tick cfg0 "t" 3 5 (.ok []) (fun _ => oAllOk)).range = some (3, 5) ∧
      ((tick cfg0 "t" 3 5 (.ok []) (fun _ => oAllOk)).aborted = false →
        (tick cfg0 "t" 3 5 (.ok []) (fun _ => oAllOk)).watermark = 6)) :=
  ⟨(c4_prop cfg0 "t" 5 5 (.ok []) (fun _ => oAllOk)).1 (by decide),
   (c4_prop cfg0 "t" 3 5 (.ok []) (fun _ => oAllOk)).2 (by decide)⟩

/-- Claim C5: over every sequence of ticks, the block ranges issued to
`get_logs` are contiguous and non-overlapping: whenever ranges `i` and
`i + 1` are both issued, `range[i+1].from = range[i].to + 1`. -/
theorem c5_prop (cfg : Config) (cb : Nat) (inps : List TickInp) :
    List.Chain' (fun r s => s.1 = r.2 + 1) (run cfg cb inps).2.1 :=
  (run_chain cfg inps cb).1

/-- Claim C6: the watermark never decreases across any tick, including ticks
on which the log query fails: for every configuration, incoming watermark,
head, query outcome and sink oracle, the watermark after the tick is at least
the watermark before it. -/
theorem c6_prop (cfg : Config) (now : String) (cb head : Nat) (q : QueryResult)
    (outs : Nat → SinkOutcome) :
    cb ≤ (tick cfg now cb head q outs).watermark := by
  unfold tick
  split
  · cases q with
    | ok logs =>
      dsimp only
      split
      · exact Nat.le_refl cb
      · dsimp only
        omega
    | err =>
      dsimp only
      omega
  · exact Nat.le_refl cb

/-- Claim C7: normalization coerces a missing block number and a missing log
index to `0` in the canonical record, never to an absent value (the record
fields are total `Nat`s). -/
theorem c7_prop (now : String) (log : Log) (cid : Option Nat) (cn : String)
    (ca : List Nat) (es : Option String) :
    (log.block_number = none →
      (log_to_event_data now log cid cn ca es).block_number = 0) ∧
    (log.log_index = none →
      (log_to_event_data now log cid cn ca es).log_index = 0) := by
  constructor <;> intro h <;> simp [log_to_event_data, h]

/-- Witness for C7 on a pending log with both fields absent. -/
theorem c7_witness :
    (log_to_event_data "t" logPending (some 1) "Ethereum Mainnet" addr0 none).block_number = 0 ∧
    (log_to_event_data "t" logPending (some 1) "Ethereum Mainnet" addr0 none).log_index = 0 :=
  ⟨(c7_prop "t" logPending (some 1) "Ethereum Mainnet" addr0 none).1 rfl,
   (c7_prop "t" logPending (some 1) "Ethereum Mainnet" addr0 none).2 rfl⟩

/-- Claim C8: `compute_event_topic` is the total (hence deterministic,
failure-free) function taking a signature to the 32-byte Keccak-256 digest of
its UTF-8 bytes, and on `Transfer(address,address,uint256)` it yields the
published signature hash
`0xddf252ad1be2c89b69c2b068fc378daa952ba7f163c4a11628f55a4df523b3ef`. -/
theorem c8_prop :
    (∀ s, (compute_event_topic s).length = 32) ∧
    bytesToHex (compute_event_topic "Transfer(address,address,uint256)") = transferTopicHex := by
  constructor
  · intro s
    simp [compute_event_topic, keccak256, laneBytes]
  · decide

/-- Claim C9: normalizing the same raw log entry twice with the same chain id,
chain name, contract address and event signature yields records identical in
every field except the timestamp. -/
theorem c9_prop (t1 t2 : String) (log : Log) (cid : Option Nat) (cn : String)
    (ca : List Nat) (es : Option String) :
    eqExceptTimestamp (log_to_event_data t1 log cid cn ca es)
      (log_to_event_data t2 log cid cn ca es) :=
  ⟨rfl, rfl, rfl, rfl, rfl, rfl, rfl, rfl, rfl⟩

/-- Claim C10: a raw log entry with an absent transaction hash normalizes to
the empty string in `transaction_hash` (not a hex string or `"0"`), and
`print_compact`, which unconditionally slices the first 10 characters,
panics on such a record (modelled as `none`). -/
theorem c10_prop (now : String) (log : Log) (cid : Option Nat) (cn : String)
    (ca : List Nat) (es : Option String) (h : log.transaction_hash = none) :
    (log_to_event_data now log cid cn ca es).transaction_hash = "" ∧
    print_compact (log_to_event_data now log cid cn ca es) = none := by
  have h1 : (log_to_event_data now log cid cn ca es).transaction_hash = "" := by
    simp [log_to_event_data, h]
  refine ⟨h1, ?_⟩
  rw [print_compact, if_neg]
  intro hc
  rw [h1] at hc
  exact absurd hc.1 (by decide)

/-- Witness for C10 on a pending log. -/
theorem c10_witness :
    (log_to_event_data "t" logPending (some 1) "Ethereum Mainnet" addr0 none).transaction_hash = "" ∧
    print_compact (log_to_event_data "t" logPending (some 1) "Ethereum Mainnet" addr0 none) = none :=
  c10_prop "t" logPending (some 1) "Ethereum Mainnet" addr0 none rfl
